import Mathlib

/-!
Verification of the note window coordinator of the knowte repository
(`src/src/app/components/note/note.component.ts`): dirty tracking, debounced
title/content persistence, and the deferred-close sequence.

The component is shallowly embedded as a state machine. `NoteState` carries
the component's mutable fields together with the host window status; every
handler of the component becomes a function `NoteState → NoteState × List Ev`,
where `Ev` records the externally observable calls (store mutations, error
surfaces, close suppression, the actual window close) in the order the code
issues them. The external `CollectionService` results are supplied by a
`Store` oracle, so theorems quantify over every possible store behaviour.
-/

/-- Modelled from the spec: the file `src/app/core/enums.ts` declaring
`Operation` is not part of the sources. The component matches on
`Operation.Blank`, `Operation.Error` and `Operation.Success` and has a final
branch for any other value; §3 of the design enumerates the outcome vocabulary
as Success, Blank, Conflict and Failure (`Error` in the code), so `Conflict`
is the remaining store-producible value reaching the final branch. -/
inductive Operation where
  | Success : Operation
  | Blank : Operation
  | Conflict : Operation
  | Error : Operation
deriving DecidableEq, Repr

/-- Modelled from the spec: `src/app/services/renameNoteResult.ts` is not part
of the sources. The component reads exactly the fields `operation` and
`newNoteTitle` of a rename result. -/
structure RenameNoteResult where
  operation : Operation
  newNoteTitle : String
deriving DecidableEq, Repr

/-- Modelled from the spec: `src/app/services/getNoteContentResult.ts` is not
part of the sources. The component reads the fields `operation` and
`noteContent`; the spec (§6) allows content to be legitimately absent, so it
is modelled as `Option String`. -/
structure GetNoteContentResult where
  operation : Operation
  noteContent : Option String
deriving DecidableEq, Repr

/-- Oracle for the external `CollectionService`: for each mutating or reading
operation, the result the store returns for given arguments. Theorems
quantify over this, covering every store behaviour. -/
structure Store where
  renameResult : String → String → String → RenameNoteResult
  updateContentResult : String → String → String → Operation
  updateNoteResult : String → String → String → String → Operation
  getContentResult : String → GetNoteContentResult

/-- The kinds of user-visible error surfaces the component requests. -/
inductive ErrKind where
  | renameNoteError : ErrKind
  | updateNoteContentError : ErrKind
  | getNoteContentError : ErrKind
deriving DecidableEq, Repr

/-- Externally observable calls of the component, in program order:
store mutations, the presence marker, error surfaces, the close-suppression
(`event.preventDefault`), the debounced close subject firing
(`saveChangedAndCloseNoteWindow.next`), and the real `window.close()`. -/
inductive Ev where
  | setNoteIsOpen : String → Bool → Ev
  | renameNoteStore : String → String → String → Ev
  | updateNoteContent : String → String → String → Ev
  | updateNote : String → String → String → String → Ev
  | snackBarTitleEmpty : Ev
  | errorDialog : ErrKind → Ev
  | preventClose : Ev
  | fireCloseSubject : Ev
  | windowClose : Ev
deriving DecidableEq, Repr

/-- `true` exactly on the error-surface calls (dialogs and snackbars). -/
def Ev.isErrorSurface : Ev → Bool
  | Ev.snackBarTitleEmpty => true
  | Ev.errorDialog _ => true
  | _ => false

/-- The component's mutable fields (`note.component.ts` lines 30-42) together
with the pending debounced close (`saveChangedAndCloseNoteWindow` has fired
and its 500 ms debounce is outstanding) and whether the host window has
closed. Quill's document is carried as its two serialized projections read at
save time (`quill.getText()` and `JSON.stringify(quill.getContents())`). -/
structure NoteState where
  noteId : String
  originalNoteTitle : String
  noteTitle : String
  isTitleChanged : Bool
  isContentChanged : Bool
  quillText : String
  quillJson : String
  closeScheduled : Bool
  windowClosed : Bool
deriving DecidableEq, Repr

/-- The dirty check of `beforeunloadHandler` (line 50):
`this.isTitleChanged || this.isContentChanged`. -/
def isAnyDirty (s : NoteState) : Bool :=
  s.isTitleChanged || s.isContentChanged

/-- JavaScript's `String.prototype.trim` (drop leading and trailing
whitespace), written with structural list recursion so that concrete
instances evaluate inside the kernel. -/
def jsTrim (s : String) : String :=
  String.mk (((s.data.dropWhile Char.isWhitespace).reverse.dropWhile
    Char.isWhitespace).reverse)

namespace CollectionService

/-- Modelled from the spec: `src/app/services/collection.service.ts` is not
part of the sources; only the component calling it is. Per §4.3, a proposed
title that is empty after trimming whitespace yields `Blank` with no store
rename call; otherwise the rename is delegated to the store with
(id, old title, new title). The returned trace records the store calls
actually issued. -/
def renameNote (st : Store) (noteId oldTitle newTitle : String) :
    RenameNoteResult × List Ev :=
  if jsTrim newTitle = "" then
    (⟨Operation.Blank, newTitle⟩, [])
  else
    (st.renameResult noteId oldTitle newTitle,
      [Ev.renameNoteStore noteId oldTitle newTitle])

end CollectionService

/-- `saveNoteTitleAsync` (lines 129-148): call the service's rename, then
branch on the result: `Blank` reverts the displayed title and shows the
snackbar; `Error` reverts the displayed title and opens the error dialog;
`Success` commits the accepted title to both fields; anything else does
nothing (the `// Do nothing` branch). -/
def saveNoteTitleAsync (st : Store) (s : NoteState) (newNoteTitle : String) :
    NoteState × List Ev :=
  let r := CollectionService.renameNote st s.noteId s.originalNoteTitle newNoteTitle
  let renameNoteResult := r.1
  let callEvs := r.2
  match renameNoteResult.operation with
  | Operation.Blank =>
      ({ s with noteTitle := s.originalNoteTitle },
        callEvs ++ [Ev.snackBarTitleEmpty])
  | Operation.Error =>
      ({ s with noteTitle := s.originalNoteTitle },
        callEvs ++ [Ev.errorDialog ErrKind.renameNoteError])
  | Operation.Success =>
      ({ s with originalNoteTitle := renameNoteResult.newNoteTitle,
                noteTitle := renameNoteResult.newNoteTitle },
        callEvs)
  | Operation.Conflict => (s, callEvs)

/-- `saveNoteContentAsync` (lines 150-166): read the serialized content from
the editor, call the store's content update, and on `Error` open exactly one
error dialog; otherwise do nothing. The local content is never touched. -/
def saveNoteContentAsync (st : Store) (s : NoteState) : NoteState × List Ev :=
  let textContent := s.quillText
  let jsonContent := s.quillJson
  let operation := st.updateContentResult s.noteId textContent jsonContent
  if operation = Operation.Error then
    (s, [Ev.updateNoteContent s.noteId textContent jsonContent,
         Ev.errorDialog ErrKind.updateNoteContentError])
  else
    (s, [Ev.updateNoteContent s.noteId textContent jsonContent])

/-- `saveNoteAll` (lines 168-172): read the serialized content and issue the
combined `updateNote` store call. The code assigns the result to nothing and
inspects nothing: the store's outcome is discarded. -/
def saveNoteAll (s : NoteState) : NoteState × List Ev :=
  let textContent := s.quillText
  let jsonContent := s.quillJson
  (s, [Ev.updateNote s.noteId s.noteTitle textContent jsonContent])

/-- JavaScript truthiness of `getNoteContentResult.noteContent` (line 184):
`null` and the empty string are falsy. -/
def isTruthy : Option String → Bool
  | none => false
  | some c => !(c = "")

/-- `getNoteContentAsync` (lines 174-189): fetch the stored content; on store
`Error` open the error dialog; otherwise, when content is truthy, run it
through `JSON.parse` and hand it to the editor. `JSON.parse` is modelled by a
parseability oracle `parse`; the code wraps the call in no try/catch, so a
failing parse is a thrown exception escaping the async method, modelled as
`none`. -/
def getNoteContentAsync (st : Store) (parse : String → Bool) (s : NoteState) :
    Option (NoteState × List Ev) :=
  let getNoteContentResult := st.getContentResult s.noteId
  if getNoteContentResult.operation = Operation.Error then
    some (s, [Ev.errorDialog ErrKind.getNoteContentError])
  else
    match getNoteContentResult.noteContent with
    | none => some (s, [])
    | some content =>
        if content = "" then some (s, [])
        else if parse content then some ({ s with quillJson := content }, [])
        else none

/-- The input events the environment can deliver to the component: the two
edit streams, the two debounced per-channel timers firing (the title timer
carries the last emitted title), the host's `beforeunload` close-signal, and
the 500 ms debounced close subject firing. -/
inductive NoteEvent where
  | editTitle : String → NoteEvent
  | editContent : String → String → NoteEvent
  | titleTimerFires : String → NoteEvent
  | contentTimerFires : NoteEvent
  | closeSignal : NoteEvent
  | closeTimerFires : NoteEvent
deriving DecidableEq, Repr

/-- One step of the component. A closed window's renderer is destroyed, so no
handler, subscription or timer runs after `windowClosed`: every event is then
a no-op. `editTitle` is `onNotetitleChange` plus the two-way title binding;
`editContent` is the Quill `text-change` handler; `closeSignal` is
`beforeunloadHandler` (lines 45-63), where taking the clean branch does not
call `event.preventDefault()`, so the host's close proceeds;
`closeTimerFires` is the `saveChangedAndCloseNoteWindow` subscription body
(lines 110-117): `setNoteIsOpen(id, false)`, then `saveNoteAll()`, then
`window.close()`, synchronously in that order. -/
def step (st : Store) (s : NoteState) (e : NoteEvent) : NoteState × List Ev :=
  if s.windowClosed then (s, []) else
  match e with
  | NoteEvent.editTitle t =>
      ({ s with noteTitle := t, isTitleChanged := true }, [])
  | NoteEvent.editContent txt js =>
      ({ s with quillText := txt, quillJson := js, isContentChanged := true }, [])
  | NoteEvent.titleTimerFires t => saveNoteTitleAsync st s t
  | NoteEvent.contentTimerFires => saveNoteContentAsync st s
  | NoteEvent.closeSignal =>
      if isAnyDirty s then
        ({ s with isTitleChanged := false, isContentChanged := false,
                  closeScheduled := true },
          [Ev.preventClose, Ev.fireCloseSubject])
      else
        ({ s with windowClosed := true },
          [Ev.setNoteIsOpen s.noteId false, Ev.windowClose])
  | NoteEvent.closeTimerFires =>
      if s.closeScheduled then
        let r := saveNoteAll s
        ({ r.1 with windowClosed := true, closeScheduled := false },
          Ev.setNoteIsOpen s.noteId false :: r.2 ++ [Ev.windowClose])
      else (s, [])

/-- Run a sequence of events, accumulating the trace. -/
def run (st : Store) (s : NoteState) : List NoteEvent → NoteState × List Ev
  | [] => (s, [])
  | e :: es =>
      let r := step st s e
      let r2 := run st r.1 es
      (r2.1, r.2 ++ r2.2)

/-- The rename outcome the component's branch sees for a given store, state
and proposed title. -/
def renameOutcome (st : Store) (s : NoteState) (t : String) : Operation :=
  (CollectionService.renameNote st s.noteId s.originalNoteTitle t).1.operation

/-- A store that always succeeds; renames accept the proposed title. -/
def stOk : Store where
  renameResult := fun _ _ newTitle => ⟨Operation.Success, newTitle⟩
  updateContentResult := fun _ _ _ => Operation.Success
  updateNoteResult := fun _ _ _ _ => Operation.Success
  getContentResult := fun _ => ⟨Operation.Success, none⟩

/-- A store on which every mutation fails. -/
def stFail : Store where
  renameResult := fun _ _ _ => ⟨Operation.Error, ""⟩
  updateContentResult := fun _ _ _ => Operation.Error
  updateNoteResult := fun _ _ _ _ => Operation.Error
  getContentResult := fun _ => ⟨Operation.Error, none⟩

/-- A store whose rename reports a title conflict. -/
def stConflict : Store where
  renameResult := fun _ _ _ => ⟨Operation.Conflict, ""⟩
  updateContentResult := fun _ _ _ => Operation.Success
  updateNoteResult := fun _ _ _ _ => Operation.Success
  getContentResult := fun _ => ⟨Operation.Success, none⟩

/-- A freshly opened note `n1` titled `Old`, with a title edit to `New`
already observed (title dirty, display field holds the typed value). -/
def sEdited : NoteState where
  noteId := "n1"
  originalNoteTitle := "Old"
  noteTitle := "New"
  isTitleChanged := true
  isContentChanged := false
  quillText := "x"
  quillJson := "\x7b\x7d"
  closeScheduled := false
  windowClosed := false

/-- `sEdited` after its dirty close-signal was intercepted: flags cleared
optimistically, the debounced close pending, the window still open. -/
def sScheduled : NoteState :=
  { sEdited with isTitleChanged := false, closeScheduled := true }

/-- `true` exactly on the combined flush-all store call (`updateNote`). -/
def Ev.isFlushCall : Ev → Bool
  | Ev.updateNote _ _ _ _ => true
  | _ => false

theorem step_closed (st : Store) (s : NoteState) (e : NoteEvent)
    (h : s.windowClosed = true) : step st s e = (s, []) := by
  simp [step, h]

theorem saveTitle_orig_unchanged (st : Store) (s : NoteState) (t : String)
    (h : renameOutcome st s t ≠ Operation.Success) :
    (saveNoteTitleAsync st s t).1.originalNoteTitle = s.originalNoteTitle := by
  unfold renameOutcome at h
  unfold saveNoteTitleAsync
  cases hop : (CollectionService.renameNote st s.noteId s.originalNoteTitle t).1.operation <;>
    simp [hop] at h ⊢

/-- C1. Refuted as stated: after a dirty close-signal and the grace delay,
the close subscription notifies the store that the note is no longer open
FIRST, then runs the flush-all, then issues the real close — not flush-all
first as the claim orders it. The computed trace is
`[setNoteIsOpen, updateNote, windowClose]` and differs from the claimed
`[updateNote, setNoteIsOpen, windowClose]`. -/
theorem close_sequence_order_refuted :
    (step stOk (step stOk sEdited NoteEvent.closeSignal).1 NoteEvent.closeTimerFires).2
      = [Ev.setNoteIsOpen "n1" false, Ev.updateNote "n1" "New" "x" "\x7b\x7d",
         Ev.windowClose]
    ∧ (step stOk (step stOk sEdited NoteEvent.closeSignal).1 NoteEvent.closeTimerFires).2
      ≠ [Ev.updateNote "n1" "New" "x" "\x7b\x7d", Ev.setNoteIsOpen "n1" false,
         Ev.windowClose] := by
  decide

/-- C1 (amended): a close-signal while a dirty flag is set suppresses the
close (the window stays open, the debounced close is scheduled), and when the
grace delay elapses the close sequence notifies the store that the document
is no longer open, then runs the flush-all to completion, then issues the
real close — the flush-all store call always precedes the window close in
the trace. -/
theorem close_sequence_notify_then_flush_then_close (st : Store) (s s2 : NoteState)
    (hd : isAnyDirty s = true) (ho : s.windowClosed = false)
    (hc : s2.closeScheduled = true) (ho2 : s2.windowClosed = false) :
    (step st s NoteEvent.closeSignal).2 = [Ev.preventClose, Ev.fireCloseSubject]
    ∧ (step st s NoteEvent.closeSignal).1.windowClosed = false
    ∧ (step st s NoteEvent.closeSignal).1.closeScheduled = true
    ∧ (step st s2 NoteEvent.closeTimerFires).2
      = [Ev.setNoteIsOpen s2.noteId false,
         Ev.updateNote s2.noteId s2.noteTitle s2.quillText s2.quillJson,
         Ev.windowClose] := by
  refine ⟨?_, ?_, ?_, ?_⟩ <;> simp [step, saveNoteAll, hd, ho, hc, ho2]

theorem close_sequence_notify_then_flush_then_close_witness :
    (step stOk sEdited NoteEvent.closeSignal).2 = [Ev.preventClose, Ev.fireCloseSubject]
    ∧ (step stOk sEdited NoteEvent.closeSignal).1.windowClosed = false
    ∧ (step stOk sEdited NoteEvent.closeSignal).1.closeScheduled = true
    ∧ (step stOk sScheduled NoteEvent.closeTimerFires).2
      = [Ev.setNoteIsOpen sScheduled.noteId false,
         Ev.updateNote sScheduled.noteId sScheduled.noteTitle sScheduled.quillText
           sScheduled.quillJson,
         Ev.windowClose] :=
  close_sequence_notify_then_flush_then_close stOk sEdited sScheduled (by decide)
    (by decide) (by decide) (by decide)

/-- C2. Refuted as stated: the save paths never clear the dirty flags. After
a successful rename with no intervening edit, `isTitleChanged` is still
`true`, so `isAnyDirty` still answers `true`. -/
theorem dirty_flag_survives_successful_save :
    renameOutcome stOk sEdited "New" = Operation.Success
    ∧ (saveNoteTitleAsync stOk sEdited "New").1.isTitleChanged = true
    ∧ isAnyDirty (saveNoteTitleAsync stOk sEdited "New").1 = true := by
  decide

/-- C2 (amended): neither save path touches either dirty flag — a title save
attempt and a content save attempt each leave `isTitleChanged` and
`isContentChanged` exactly as they were, whatever the outcome; the flags are
cleared only by the close interceptor's dirty branch. -/
theorem save_paths_preserve_dirty_flags (st : Store) (s : NoteState) (t : String) :
    (saveNoteTitleAsync st s t).1.isTitleChanged = s.isTitleChanged
    ∧ (saveNoteTitleAsync st s t).1.isContentChanged = s.isContentChanged
    ∧ (saveNoteContentAsync st s).1.isTitleChanged = s.isTitleChanged
    ∧ (saveNoteContentAsync st s).1.isContentChanged = s.isContentChanged := by
  refine ⟨?_, ?_, ?_, ?_⟩ <;>
  · simp only [saveNoteTitleAsync, saveNoteContentAsync]
    split <;> simp

/-- C3. Spec-modelled service blank rule plus the component's `Blank` branch:
a proposed title that is empty after trimming yields the `Blank` outcome,
the displayed title reverts to the last-known-good title, and the attempt's
trace holds no store rename call — only the empty-title snackbar. -/
theorem blank_title_reverts_without_store_call (st : Store) (s : NoteState)
    (t : String) (hb : jsTrim t = "") :
    renameOutcome st s t = Operation.Blank
    ∧ (saveNoteTitleAsync st s t).1.noteTitle = s.originalNoteTitle
    ∧ (saveNoteTitleAsync st s t).2 = [Ev.snackBarTitleEmpty] := by
  refine ⟨?_, ?_, ?_⟩ <;>
    simp [renameOutcome, CollectionService.renameNote, saveNoteTitleAsync, hb]

theorem blank_title_reverts_without_store_call_witness :
    renameOutcome stOk sEdited "   " = Operation.Blank
    ∧ (saveNoteTitleAsync stOk sEdited "   ").1.noteTitle = sEdited.originalNoteTitle
    ∧ (saveNoteTitleAsync stOk sEdited "   ").2 = [Ev.snackBarTitleEmpty] :=
  blank_title_reverts_without_store_call stOk sEdited "   " (by decide)

/-- C4. Refuted as stated: a second close-signal arriving while the first
intercepted close is still pending (state `InterceptedDirty`) is not a no-op.
Because the dirty flags were already cleared, the handler takes the clean
branch: it does not suppress the close, so the window closes at once, and in
the whole run the pending flush never executes — the combined `updateNote`
call appears nowhere in the trace. -/
theorem second_close_signal_not_noop :
    (step stOk (step stOk sEdited NoteEvent.closeSignal).1 NoteEvent.closeSignal).1.windowClosed
      = true
    ∧ (step stOk sEdited NoteEvent.closeSignal).1.windowClosed = false
    ∧ (step stOk (step stOk sEdited NoteEvent.closeSignal).1 NoteEvent.closeSignal).2 ≠ []
    ∧ (run stOk sEdited
        [NoteEvent.closeSignal, NoteEvent.closeSignal, NoteEvent.closeTimerFires]).2.countP
        (fun e => Ev.isFlushCall e) = 0 := by
  decide

/-- C4 (amended): a close-signal received while the intercepted close is
pending schedules no second flush (the close subject is not fired again) and
runs no flush, but it is not a no-op: it takes the clean branch, notifies the
store the document is no longer open, and lets the host close proceed
immediately, so the pending flush is lost. Once the window is closed no event
causes any transition — the `Closed` state is terminal. -/
theorem second_close_signal_takes_clean_path (st : Store) (s : NoteState)
    (hc : s.closeScheduled = true) (ht : s.isTitleChanged = false)
    (hcc : s.isContentChanged = false) (ho : s.windowClosed = false) :
    (step st s NoteEvent.closeSignal).2 = [Ev.setNoteIsOpen s.noteId false, Ev.windowClose]
    ∧ (step st s NoteEvent.closeSignal).2.countP (fun e => e = Ev.fireCloseSubject) = 0
    ∧ (step st s NoteEvent.closeSignal).2.countP (fun e => Ev.isFlushCall e) = 0
    ∧ (step st s NoteEvent.closeSignal).1.windowClosed = true
    ∧ (∀ (e : NoteEvent) (s2 : NoteState), s2.windowClosed = true →
        step st s2 e = (s2, [])) := by
  refine ⟨?_, ?_, ?_, ?_, ?_⟩
  · simp [step, isAnyDirty, ht, hcc, ho]
  · simp [step, isAnyDirty, ht, hcc, ho, Ev.isFlushCall, List.countP, List.countP.go]
  · simp [step, isAnyDirty, ht, hcc, ho, Ev.isFlushCall, List.countP, List.countP.go]
  · simp [step, isAnyDirty, ht, hcc, ho]
  · intro e s2 h2
    simp [step, h2]

theorem second_close_signal_takes_clean_path_witness :
    (step stOk sScheduled NoteEvent.closeSignal).2
      = [Ev.setNoteIsOpen sScheduled.noteId false, Ev.windowClose]
    ∧ (step stOk sScheduled NoteEvent.closeSignal).2.countP
        (fun e => e = Ev.fireCloseSubject) = 0
    ∧ (step stOk sScheduled NoteEvent.closeSignal).2.countP
        (fun e => Ev.isFlushCall e) = 0
    ∧ (step stOk sScheduled NoteEvent.closeSignal).1.windowClosed = true
    ∧ (∀ (e : NoteEvent) (s2 : NoteState), s2.windowClosed = true →
        step stOk s2 e = (s2, [])) :=
  second_close_signal_takes_clean_path stOk sScheduled (by decide) (by decide)
    (by decide) (by decide)

/-- C5: once the close sequence has run (the `Flushing` transition, which
ends with the real close), a per-channel debounce timer that still fires is a
no-op — the state is unchanged and its trace is empty, so in particular no
store operation is performed. -/
theorem channel_timers_after_flushing_are_noops (st : Store) (s : NoteState)
    (t : String) (hc : s.closeScheduled = true) (ho : s.windowClosed = false) :
    step st (step st s NoteEvent.closeTimerFires).1 (NoteEvent.titleTimerFires t)
      = ((step st s NoteEvent.closeTimerFires).1, [])
    ∧ step st (step st s NoteEvent.closeTimerFires).1 NoteEvent.contentTimerFires
      = ((step st s NoteEvent.closeTimerFires).1, []) := by
  have hclosed : (step st s NoteEvent.closeTimerFires).1.windowClosed = true := by
    simp [step, ho, hc, saveNoteAll]
  exact ⟨step_closed st _ _ hclosed, step_closed st _ _ hclosed⟩

theorem channel_timers_after_flushing_are_noops_witness :
    step stOk (step stOk sScheduled NoteEvent.closeTimerFires).1
        (NoteEvent.titleTimerFires "New")
      = ((step stOk sScheduled NoteEvent.closeTimerFires).1, [])
    ∧ step stOk (step stOk sScheduled NoteEvent.closeTimerFires).1
        NoteEvent.contentTimerFires
      = ((step stOk sScheduled NoteEvent.closeTimerFires).1, []) :=
  channel_timers_after_flushing_are_noops stOk sScheduled "New" (by decide) (by decide)

/-- C6. Refuted as stated: on a store where every mutation fails, the
close-time flush-all still issues its `updateNote` call (exactly one flush
call in the run's trace) but surfaces no error at all — `saveNoteAll`
discards the store's result, so this `Failure` triggers zero error-surface
calls, not exactly one. -/
theorem flush_all_failure_unreported :
    stFail.updateNoteResult "n1" "New" "x" "\x7b\x7d" = Operation.Error
    ∧ (run stFail sEdited [NoteEvent.closeSignal, NoteEvent.closeTimerFires]).2.countP
        (fun e => Ev.isFlushCall e) = 1
    ∧ (run stFail sEdited [NoteEvent.closeSignal, NoteEvent.closeTimerFires]).2.countP
        (fun e => Ev.isErrorSurface e) = 0 := by
  decide

/-- C6 (amended): the two debounced save paths inspect their store outcome
and surface exactly one error on `Failure`; the close-time flush-all path,
by contrast, never inspects the `updateNote` result and surfaces no error for
any store whatsoever. -/
theorem failure_surfacing_per_path (st : Store) (s : NoteState) (t : String)
    (hr : renameOutcome st s t = Operation.Error)
    (hu : st.updateContentResult s.noteId s.quillText s.quillJson = Operation.Error) :
    (saveNoteTitleAsync st s t).2.countP (fun e => Ev.isErrorSurface e) = 1
    ∧ (saveNoteContentAsync st s).2.countP (fun e => Ev.isErrorSurface e) = 1
    ∧ (∀ s2 : NoteState, (saveNoteAll s2).2.countP (fun e => Ev.isErrorSurface e) = 0) := by
  refine ⟨?_, ?_, ?_⟩
  · unfold renameOutcome CollectionService.renameNote at hr
    by_cases hb : jsTrim t = ""
    · simp [hb] at hr
    · simp only [saveNoteTitleAsync, CollectionService.renameNote, hb, if_neg hb] at hr ⊢
      simp at hr
      simp [hr, Ev.isErrorSurface]
  · simp [saveNoteContentAsync, hu, Ev.isErrorSurface]
  · intro s2
    simp [saveNoteAll, Ev.isErrorSurface]

theorem failure_surfacing_per_path_witness :
    (saveNoteTitleAsync stFail sEdited "New").2.countP (fun e => Ev.isErrorSurface e) = 1
    ∧ (saveNoteContentAsync stFail sEdited).2.countP (fun e => Ev.isErrorSurface e) = 1
    ∧ (∀ s2 : NoteState, (saveNoteAll s2).2.countP (fun e => Ev.isErrorSurface e) = 0) :=
  failure_surfacing_per_path stFail sEdited "New" (by decide) (by decide)

/-- A store holding undeserializable content for every note. -/
def stBadContent : Store :=
  { stOk with getContentResult := fun _ => ⟨Operation.Success, some "oops"⟩ }

/-- C7. Refuted as stated: loading stored content that cannot be parsed does
not surface any error and does not fall back to the placeholder — the
unguarded `JSON.parse` throws, and the exception escapes the load path
(modelled as `none`). -/
theorem load_parse_failure_crashes :
    getNoteContentAsync stBadContent (fun _ => false) sEdited = none := by
  decide

/-- C7 (amended): the load path surfaces exactly one error dialog only for a
store-level `Failure`; absent or empty content leaves the editor at its
placeholder with no error; and non-empty content that fails to parse raises
an uncaught exception from the load path with nothing surfaced. -/
theorem load_path_outcomes (st : Store) (parse : String → Bool) (s : NoteState)
    (c : String) (hcon : (st.getContentResult s.noteId).noteContent = some c)
    (hop : (st.getContentResult s.noteId).operation ≠ Operation.Error)
    (hne : c ≠ "") (hp : parse c = false) :
    getNoteContentAsync st parse s = none
    ∧ (∀ (st2 : Store) (p2 : String → Bool) (s2 : NoteState),
        (st2.getContentResult s2.noteId).operation = Operation.Error →
        getNoteContentAsync st2 p2 s2
          = some (s2, [Ev.errorDialog ErrKind.getNoteContentError]))
    ∧ (∀ (st2 : Store) (p2 : String → Bool) (s2 : NoteState),
        isTruthy (st2.getContentResult s2.noteId).noteContent = false →
        (st2.getContentResult s2.noteId).operation ≠ Operation.Error →
        getNoteContentAsync st2 p2 s2 = some (s2, [])) := by
  refine ⟨?_, ?_, ?_⟩
  · simp [getNoteContentAsync, hcon, hop, hne, hp]
  · intro st2 p2 s2 h2
    simp [getNoteContentAsync, h2]
  · intro st2 p2 s2 htr h2
    cases hnc : (st2.getContentResult s2.noteId).noteContent with
    | none => simp [getNoteContentAsync, h2, hnc]
    | some c2 =>
        rw [hnc] at htr
        simp [isTruthy] at htr
        simp [getNoteContentAsync, h2, hnc, htr]

theorem load_path_outcomes_witness :
    getNoteContentAsync stBadContent (fun _ => false) sScheduled = none
    ∧ (∀ (st2 : Store) (p2 : String → Bool) (s2 : NoteState),
        (st2.getContentResult s2.noteId).operation = Operation.Error →
        getNoteContentAsync st2 p2 s2
          = some (s2, [Ev.errorDialog ErrKind.getNoteContentError]))
    ∧ (∀ (st2 : Store) (p2 : String → Bool) (s2 : NoteState),
        isTruthy (st2.getContentResult s2.noteId).noteContent = false →
        (st2.getContentResult s2.noteId).operation ≠ Operation.Error →
        getNoteContentAsync st2 p2 s2 = some (s2, [])) :=
  load_path_outcomes stBadContent (fun _ => false) sScheduled "oops" (by decide)
    (by decide) (by decide) (by decide)

/-- C8: a store `Failure` on the content update yields exactly the trace
`[updateNoteContent, errorDialog]` — one error-surface call — and the state,
in particular the in-memory content, is returned unchanged: the content save
path never reverts local content on failure. -/
theorem content_failure_one_report_no_revert (st : Store) (s : NoteState)
    (h : st.updateContentResult s.noteId s.quillText s.quillJson = Operation.Error) :
    saveNoteContentAsync st s
      = (s, [Ev.updateNoteContent s.noteId s.quillText s.quillJson,
             Ev.errorDialog ErrKind.updateNoteContentError])
    ∧ (saveNoteContentAsync st s).2.countP (fun e => Ev.isErrorSurface e) = 1
    ∧ (saveNoteContentAsync st s).1.quillText = s.quillText
    ∧ (saveNoteContentAsync st s).1.quillJson = s.quillJson := by
  refine ⟨?_, ?_, ?_, ?_⟩ <;> simp [saveNoteContentAsync, h, Ev.isErrorSurface]

theorem content_failure_one_report_no_revert_witness :
    saveNoteContentAsync stFail sEdited
      = (sEdited, [Ev.updateNoteContent sEdited.noteId sEdited.quillText sEdited.quillJson,
                   Ev.errorDialog ErrKind.updateNoteContentError])
    ∧ (saveNoteContentAsync stFail sEdited).2.countP (fun e => Ev.isErrorSurface e) = 1
    ∧ (saveNoteContentAsync stFail sEdited).1.quillText = sEdited.quillText
    ∧ (saveNoteContentAsync stFail sEdited).1.quillJson = sEdited.quillJson :=
  content_failure_one_report_no_revert stFail sEdited (by decide)

/-- C9. Refuted as stated: when the store's rename returns an outcome outside
Success, Blank and Failure (here `Conflict`), the component's final branch
does nothing — the displayed title stays at the typed value `New` instead of
reverting to the last-known-good `Old`, and not a single error-surface call
is made, unlike an explicit `Failure`. -/
theorem unknown_rename_result_ignored :
    renameOutcome stConflict sEdited "New" = Operation.Conflict
    ∧ (saveNoteTitleAsync stConflict sEdited "New").1.noteTitle = "New"
    ∧ sEdited.originalNoteTitle = "Old"
    ∧ ("New" ≠ "Old")
    ∧ (saveNoteTitleAsync stConflict sEdited "New").2.countP
        (fun e => Ev.isErrorSurface e) = 0 := by
  decide

/-- C9 (amended): a rename outcome other than Success, Blank or Failure
(i.e. `Conflict`) is silently ignored rather than treated as `Failure`:
the component's state is entirely unchanged — no revert — and no error is
surfaced; the trace holds only the store rename call itself. -/
theorem unknown_rename_result_silent (st : Store) (s : NoteState) (t : String)
    (h : renameOutcome st s t = Operation.Conflict) :
    (saveNoteTitleAsync st s t).1 = s
    ∧ (saveNoteTitleAsync st s t).2.countP (fun e => Ev.isErrorSurface e) = 0 := by
  unfold renameOutcome CollectionService.renameNote at h
  by_cases hb : jsTrim t = ""
  · simp [hb] at h
  · simp only [saveNoteTitleAsync, CollectionService.renameNote, hb, if_neg hb] at h ⊢
    simp at h
    simp [h, Ev.isErrorSurface]

theorem unknown_rename_result_silent_witness :
    (saveNoteTitleAsync stConflict sEdited "New").1 = sEdited
    ∧ (saveNoteTitleAsync stConflict sEdited "New").2.countP
        (fun e => Ev.isErrorSurface e) = 0 :=
  unknown_rename_result_silent stConflict sEdited "New" (by decide)

/-- C10: on a title save attempt whose outcome is Blank or Failure, the
last-known-good title `originalNoteTitle` is unchanged and only the displayed
`noteTitle` is mutated, reverted to it; and for every store, state and title,
the last-known-good title changes only when the outcome is `Success`. -/
theorem title_save_frame (st : Store) (s : NoteState) (t : String)
    (h : renameOutcome st s t = Operation.Blank ∨ renameOutcome st s t = Operation.Error) :
    (saveNoteTitleAsync st s t).1.originalNoteTitle = s.originalNoteTitle
    ∧ (saveNoteTitleAsync st s t).1.noteTitle = s.originalNoteTitle
    ∧ (∀ (st2 : Store) (s2 : NoteState) (t2 : String),
        (saveNoteTitleAsync st2 s2 t2).1.originalNoteTitle ≠ s2.originalNoteTitle →
        renameOutcome st2 s2 t2 = Operation.Success) := by
  refine ⟨?_, ?_, ?_⟩
  · refine saveTitle_orig_unchanged st s t ?_
    rcases h with h | h <;> simp [h]
  · unfold renameOutcome at h
    rcases h with h | h <;> simp [saveNoteTitleAsync, h]
  · intro st2 s2 t2 hne
    by_cases hs : renameOutcome st2 s2 t2 = Operation.Success
    · exact hs
    · exact absurd (saveTitle_orig_unchanged st2 s2 t2 hs) hne

theorem title_save_frame_witness :
    (saveNoteTitleAsync stFail sEdited "New").1.originalNoteTitle
      = sEdited.originalNoteTitle
    ∧ (saveNoteTitleAsync stFail sEdited "New").1.noteTitle
      = sEdited.originalNoteTitle
    ∧ (∀ (st2 : Store) (s2 : NoteState) (t2 : String),
        (saveNoteTitleAsync st2 s2 t2).1.originalNoteTitle ≠ s2.originalNoteTitle →
        renameOutcome st2 s2 t2 = Operation.Success) :=
  title_save_frame stFail sEdited "New" (Or.inr (by decide))
